import Mathlib

/-!
Verification of `etc/jupyterhub_config_comanage.py` (bnl-sdcc/pycomanage).

The artifact is a declarative JupyterHub configuration module.  Executing it
performs a flat sequence of effects: `import` statements (which raise
`ImportError` when the named module is unavailable), assignments into
`os.environ`, and attribute assignments on the configuration object `c`.
We embed the module body as a list of statements and give it a small-step
interpreter over an explicit state (environment bindings and configuration
bindings), failing exactly where Python would raise `ImportError`.
-/

namespace PyComanage

/-- Python values occurring as right-hand sides of the configuration
assignments: strings, integers, booleans, list literals, set literals,
and references to an imported class object. -/
inductive PyVal where
  | str (s : String)
  | int (n : Int)
  | bool (b : Bool)
  | pyList (xs : List PyVal)
  | pySet (xs : List PyVal)
  | classRef (modName attrName : String)


/-- Top-level statements of the configuration module body. -/
inductive Stmt where
  | importMod (m : String)
  | importFrom (m : String) (names : List String)
  | setEnv (key val : String)
  | setConfig (key : String) (val : PyVal)


instance : Inhabited Stmt := ⟨Stmt.importMod ""⟩

/-- The body of `etc/jupyterhub_config_comanage.py`, statement by statement
(lines 7-28 of the source). -/
def jupyterhub_config_comanage : List Stmt :=
  [ .importMod "os"
  , .setEnv "CILOGON_HOST" "cilogon.org"
  , .setEnv "CILOGON_CLIENT_ID" "cilogon:/client_id/5ea8818a26318a9dc03d8a1f82bef34a"
  , .setEnv "CILOGON_CLIENT_SECRET"
      "XXXXXXXXXXXXXXXXXXXXXXXXXXXXXXXXXXXXXXXXXXXXXXXXXXXXXXXXXXXXXXXXXXXXXXXXXXXx"
  , .setEnv "JUPYTERHUB_CRYPT_KEY"
      "XXXXXXXXXXXXXXXXXXXXXXXXXXXXXXXXXXXXXXXXXXXXXXXXXXXXXXXXXXXXxxxx"
  , .importFrom "oauthenticator.comanage"
      ["COManageOAuthenticator", "LocalCOManageOAuthenticator"]
  , .importFrom "jupyterhub.comanage" ["NormalizedSpawner"]
  , .setConfig "JupyterHub.authenticator_class"
      (.classRef "oauthenticator.comanage" "LocalCOManageOAuthenticator")
  , .setConfig "COManageOAuthenticator.oauth_callback_url"
      (.str "https://jupyter05.sdcc.bnl.gov:8000/hub/oauth_callback")
  , .setConfig "COManageOAuthenticator.idp_whitelist"
      (.pyList [.str "bnl.gov", .str "anl.gov", .str "ornl.gov", .str "lbl.gov"])
  , .setConfig "COManageOAuthenticator.comanage_group_whitelist"
      (.pyList [.str "CO:members:active", .str "bnl"])
  , .setConfig "JupyterHub.cookie_secret_file"
      (.str "/usr/local/anaconda3/etc/jupyterhub/jupyterhub_cookie_secret")
  , .setConfig "ConfigurableHTTPProxy.debug" (.bool true)
  , .setConfig "JupyterHub.log_level" (.int 10)
  , .setConfig "JupyterHub.spawner_class" (.str "jupyterhub.spawner.LocalProcessSpawner")
  , .setConfig "JupyterHub.ssl_cert"
      (.str "/usr/local/anaconda3/etc/jupyterhub/ssl/certificate.crt")
  , .setConfig "JupyterHub.ssl_key"
      (.str "/usr/local/anaconda3/etc/jupyterhub/ssl/key.pem")
  , .setConfig "Spawner.debug" (.bool true)
  , .setConfig "Authenticator.admin_users" (.pySet [.str "jhover@bnl.gov"])
  , .setConfig "Authenticator.enable_auth_state" (.bool true)
  , .setConfig "LocalAuthenticator.create_system_users" (.bool true)
  ]

/-- State built up while the module body executes: the process environment
and the attribute bindings of the configuration object `c`. -/
structure LoadState where
  environ : List (String × String)
  config : List (String × PyVal)


/-- The state before the module body runs (no bindings made by the file). -/
def LoadState.empty : LoadState := ⟨[], []⟩

/-- Update an association list in place: replace the binding of `k` if one
exists, otherwise append a new binding (the semantics of `d[k] = v` and of
attribute assignment). -/
def setKV {α : Type} (l : List (String × α)) (k : String) (v : α) :
    List (String × α) :=
  match l with
  | [] => [(k, v)]
  | (k', v') :: rest =>
      if k' = k then (k, v) :: rest else (k', v') :: setKV rest k v

/-- Run the module body.  `available` is the set of importable modules;
an `import` of a module not in it raises `ImportError`, aborting the load
exactly as Python would. -/
def runStmts (available : List String) :
    List Stmt → LoadState → Except String LoadState
  | [], st => .ok st
  | .importMod m :: rest, st =>
      if m ∈ available then runStmts available rest st
      else .error ("ImportError: " ++ m)
  | .importFrom m _ :: rest, st =>
      if m ∈ available then runStmts available rest st
      else .error ("ImportError: " ++ m)
  | .setEnv k v :: rest, st =>
      runStmts available rest { st with environ := setKV st.environ k v }
  | .setConfig k v :: rest, st =>
      runStmts available rest { st with config := setKV st.config k v }

/-- Modules the configuration file imports from. -/
def importedModules : List String :=
  ["os", "oauthenticator.comanage", "jupyterhub.comanage"]

/-- Result of loading the file in an environment where every referenced
module is importable. -/
def loadedResult : Except String LoadState :=
  runStmts importedModules jupyterhub_config_comanage LoadState.empty

/-- The environment bindings made by a successful load (empty on failure). -/
def loadedEnviron : List (String × String) :=
  match loadedResult with
  | .ok st => st.environ
  | .error _ => []

/-- Look up a configuration key in the loaded state. -/
def loadedConfigVal (k : String) : Option PyVal :=
  match loadedResult with
  | .ok st => st.config.lookup k
  | .error _ => none

/-- Look up an environment variable in the loaded state. -/
def loadedEnvVal (k : String) : Option String :=
  match loadedResult with
  | .ok st => st.environ.lookup k
  | .error _ => none

/-- Environment-variable keys assigned by the module body, in order. -/
def envKeysOf : List Stmt → List String
  | [] => []
  | .setEnv k _ :: rest => k :: envKeysOf rest
  | _ :: rest => envKeysOf rest

/-- Configuration keys assigned by the module body, in order. -/
def configKeysOf : List Stmt → List String
  | [] => []
  | .setConfig k _ :: rest => k :: configKeysOf rest
  | _ :: rest => configKeysOf rest

/-- Configuration values assigned by the module body, in order. -/
def configValsOf : List Stmt → List PyVal
  | [] => []
  | .setConfig _ v :: rest => v :: configValsOf rest
  | _ :: rest => configValsOf rest

/-- Environment bindings produced by running the file (lines 8-11). -/
def expectedEnviron : List (String × String) :=
  [ ("CILOGON_HOST", "cilogon.org")
  , ("CILOGON_CLIENT_ID", "cilogon:/client_id/5ea8818a26318a9dc03d8a1f82bef34a")
  , ("CILOGON_CLIENT_SECRET",
      "XXXXXXXXXXXXXXXXXXXXXXXXXXXXXXXXXXXXXXXXXXXXXXXXXXXXXXXXXXXXXXXXXXXXXXXXXXXx")
  , ("JUPYTERHUB_CRYPT_KEY",
      "XXXXXXXXXXXXXXXXXXXXXXXXXXXXXXXXXXXXXXXXXXXXXXXXXXXXXXXXXXXXxxxx")
  ]

/-- Configuration bindings produced by running the file (lines 15-28). -/
def expectedConfig : List (String × PyVal) :=
  [ ("JupyterHub.authenticator_class",
      .classRef "oauthenticator.comanage" "LocalCOManageOAuthenticator")
  , ("COManageOAuthenticator.oauth_callback_url",
      .str "https://jupyter05.sdcc.bnl.gov:8000/hub/oauth_callback")
  , ("COManageOAuthenticator.idp_whitelist",
      .pyList [.str "bnl.gov", .str "anl.gov", .str "ornl.gov", .str "lbl.gov"])
  , ("COManageOAuthenticator.comanage_group_whitelist",
      .pyList [.str "CO:members:active", .str "bnl"])
  , ("JupyterHub.cookie_secret_file",
      .str "/usr/local/anaconda3/etc/jupyterhub/jupyterhub_cookie_secret")
  , ("ConfigurableHTTPProxy.debug", .bool true)
  , ("JupyterHub.log_level", .int 10)
  , ("JupyterHub.spawner_class", .str "jupyterhub.spawner.LocalProcessSpawner")
  , ("JupyterHub.ssl_cert", .str "/usr/local/anaconda3/etc/jupyterhub/ssl/certificate.crt")
  , ("JupyterHub.ssl_key", .str "/usr/local/anaconda3/etc/jupyterhub/ssl/key.pem")
  , ("Spawner.debug", .bool true)
  , ("Authenticator.admin_users", .pySet [.str "jhover@bnl.gov"])
  , ("Authenticator.enable_auth_state", .bool true)
  , ("LocalAuthenticator.create_system_users", .bool true)
  ]

/-- The full state produced by a successful load of the file. -/
def expectedState : LoadState := ⟨expectedEnviron, expectedConfig⟩

/-- Modelled from the spec: the environment variables documented in the
option table of spec section 6 (identity-provider host, client id, client
secret, and the session-signing key). -/
def specTableEnvKeys : List String :=
  ["CILOGON_HOST", "CILOGON_CLIENT_ID", "CILOGON_CLIENT_SECRET", "JUPYTERHUB_CRYPT_KEY"]

/-- Modelled from the spec: the settings-object options documented in the
option table of spec section 6, each row mapped to the configuration key it
describes (the TLS certificate/key row covers two keys).  The table has no
row for the per-user spawner debug flag. -/
def specTableConfigKeys : List String :=
  [ "JupyterHub.authenticator_class"
  , "COManageOAuthenticator.oauth_callback_url"
  , "COManageOAuthenticator.idp_whitelist"
  , "COManageOAuthenticator.comanage_group_whitelist"
  , "JupyterHub.cookie_secret_file"
  , "ConfigurableHTTPProxy.debug"
  , "JupyterHub.log_level"
  , "JupyterHub.spawner_class"
  , "JupyterHub.ssl_cert"
  , "JupyterHub.ssl_key"
  , "Authenticator.admin_users"
  , "Authenticator.enable_auth_state"
  , "LocalAuthenticator.create_system_users"
  ]

/-- A value that is a Python string. -/
def isStringVal : PyVal → Bool
  | .str _ => true
  | _ => false

/-- A simple scalar in the sense of the spec invariant: a string, an
integer, or a boolean. -/
def isSimpleScalar : PyVal → Bool
  | .str _ => true
  | .int _ => true
  | .bool _ => true
  | _ => false

/-- A Python set literal all of whose elements are strings. -/
def isSetOfStrings : PyVal → Bool
  | .pySet xs => xs.all isStringVal
  | _ => false

/-- A Python list literal all of whose elements are strings. -/
def isListOfStrings : PyVal → Bool
  | .pyList xs => xs.all isStringVal
  | _ => false

/-- A reference to an imported class object. -/
def isClassRefVal : PyVal → Bool
  | .classRef _ _ => true
  | _ => false

mutual

/-- Whether a value mentions the class `attrName` of module `modName`,
looking inside list and set literals. -/
def valUsesClass (modName attrName : String) : PyVal → Bool
  | .classRef m a => m == modName && a == attrName
  | .pyList xs => listUsesClass modName attrName xs
  | .pySet xs => listUsesClass modName attrName xs
  | _ => false

/-- Whether any value of a list mentions the class `attrName` of module
`modName`. -/
def listUsesClass (modName attrName : String) : List PyVal → Bool
  | [] => false
  | v :: vs => valUsesClass modName attrName v || listUsesClass modName attrName vs

end

/-- Whether a statement assigns a value that mentions the class `attrName`
of module `modName`. -/
def stmtUsesClass (modName attrName : String) : Stmt → Bool
  | .setConfig _ v => valUsesClass modName attrName v
  | _ => false

/-- Whether a statement is an assignment into `os.environ`. -/
def isSetEnv : Stmt → Bool
  | .setEnv _ _ => true
  | _ => false

/-- Whether a statement assigns the authenticator-class configuration key. -/
def isAuthenticatorSelect : Stmt → Bool
  | .setConfig k _ => k == "JupyterHub.authenticator_class"
  | _ => false

/-- Every statement satisfying `p` occurs strictly before every statement
satisfying `q` in the list. -/
def allPrecede (p q : Stmt → Bool) : List Stmt → Bool
  | [] => true
  | s :: rest => (!q s || rest.all fun t => !p t) && allPrecede p q rest

/-- C1 (counterexample).  The claim says loading populates exactly the
configuration keys documented in the spec's option table, but the file also
assigns the per-user spawner debug flag `c.Spawner.debug = True` (line 25),
which has no row in the table: the key is assigned by the file, absent from
the table's keys, and bound to `True` after loading. -/
theorem C1_spawner_debug_undocumented :
    "Spawner.debug" ∈ configKeysOf jupyterhub_config_comanage ∧
    "Spawner.debug" ∉ specTableConfigKeys ∧
    loadedConfigVal "Spawner.debug" = some (.bool true) := by
  refine ⟨by decide, by decide, rfl⟩

/-- C1 (amended).  Whenever the three imported modules (`os`,
`oauthenticator.comanage`, `jupyterhub.comanage`) are importable, loading
the file does not raise and produces exactly the bindings written in the
file: the environment variables are exactly the four documented in the
spec's option table with their literal values, and the configuration keys
are exactly the table's keys plus the undocumented spawner debug flag,
each bound to the literal value written in the file. -/
theorem C1_load_populates_file_keys (available : List String)
    (h1 : "os" ∈ available) (h2 : "oauthenticator.comanage" ∈ available)
    (h3 : "jupyterhub.comanage" ∈ available) :
    runStmts available jupyterhub_config_comanage LoadState.empty = .ok expectedState ∧
    envKeysOf jupyterhub_config_comanage = specTableEnvKeys ∧
    (configKeysOf jupyterhub_config_comanage).Perm
      ("Spawner.debug" :: specTableConfigKeys) := by
  refine ⟨?_, by decide, by decide⟩
  simp only [jupyterhub_config_comanage, runStmts, h1, h2, h3, if_true]
  rfl

/-- C1 (witness).  The amended load theorem applied to the concrete module
environment that provides exactly the three imported modules. -/
theorem C1_load_populates_file_keys_witness :
    runStmts importedModules jupyterhub_config_comanage LoadState.empty = .ok expectedState ∧
    envKeysOf jupyterhub_config_comanage = specTableEnvKeys ∧
    (configKeysOf jupyterhub_config_comanage).Perm
      ("Spawner.debug" :: specTableConfigKeys) :=
  C1_load_populates_file_keys importedModules (by decide) (by decide) (by decide)

/-- C2 (counterexample).  The claim says every assigned value is a simple
scalar, a set of strings, or a file-path string.  But line 15 assigns the
class object `LocalCOManageOAuthenticator` to the authenticator-class key,
and lines 17-18 assign Python list literals (not sets) to the whitelists;
neither a class reference nor a list is a scalar, a set of strings, or a
string. -/
theorem C2_value_shape_counterexample :
    loadedConfigVal "JupyterHub.authenticator_class" =
      some (.classRef "oauthenticator.comanage" "LocalCOManageOAuthenticator") ∧
    (isSimpleScalar (.classRef "oauthenticator.comanage" "LocalCOManageOAuthenticator") ||
      isSetOfStrings (.classRef "oauthenticator.comanage" "LocalCOManageOAuthenticator")) =
      false ∧
    loadedConfigVal "COManageOAuthenticator.idp_whitelist" =
      some (.pyList [.str "bnl.gov", .str "anl.gov", .str "ornl.gov", .str "lbl.gov"]) ∧
    (isSimpleScalar (.pyList [.str "bnl.gov", .str "anl.gov", .str "ornl.gov", .str "lbl.gov"]) ||
      isSetOfStrings (.pyList [.str "bnl.gov", .str "anl.gov", .str "ornl.gov", .str "lbl.gov"])) =
      false :=
  ⟨rfl, rfl, rfl, rfl⟩

/-- C2 (amended).  Every value the file assigns to an environment variable
is a string (environment assignments carry `String` values in the
embedding, as in `os.environ`), and every value assigned to a settings
attribute is a simple scalar (string, integer, or boolean), a list of
strings, a set of strings, or a reference to an imported class. -/
theorem C2_values_shape :
    (configValsOf jupyterhub_config_comanage).all
      (fun v => isSimpleScalar v || isListOfStrings v || isSetOfStrings v ||
        isClassRefVal v) = true :=
  rfl

/-- C3.  No configuration key and no environment variable is assigned more
than once by the module body: the list of environment keys it assigns and
the list of configuration keys it assigns each contain no duplicate, so
each key the file sets receives exactly one assignment. -/
theorem C3_keys_assigned_once :
    (envKeysOf jupyterhub_config_comanage).Nodup ∧
    (configKeysOf jupyterhub_config_comanage).Nodup := by
  decide

/-- C4.  After loading, the environment produced by the file is exactly the
four identity-related variables — CILOGON_HOST (= `cilogon.org`),
CILOGON_CLIENT_ID, CILOGON_CLIENT_SECRET, JUPYTERHUB_CRYPT_KEY — each bound
to the literal string written in the file, and every one of these
assignments occurs strictly before the authenticator plugin is selected. -/
theorem C4_environ_exact_and_set_first :
    loadedEnviron = expectedEnviron ∧
    loadedEnvVal "CILOGON_HOST" = some "cilogon.org" ∧
    allPrecede isSetEnv isAuthenticatorSelect jupyterhub_config_comanage = true :=
  ⟨rfl, rfl, rfl⟩

/-- C5.  After loading, the identity-provider domain whitelist holds
exactly the four domains `bnl.gov`, `anl.gov`, `ornl.gov`, `lbl.gov`, and
the group-membership whitelist holds exactly the two groups
`CO:members:active` and `bnl`. -/
theorem C5_whitelists :
    loadedConfigVal "COManageOAuthenticator.idp_whitelist" =
      some (.pyList [.str "bnl.gov", .str "anl.gov", .str "ornl.gov", .str "lbl.gov"]) ∧
    loadedConfigVal "COManageOAuthenticator.comanage_group_whitelist" =
      some (.pyList [.str "CO:members:active", .str "bnl"]) :=
  ⟨rfl, rfl⟩

/-- C6.  The spawner-class selection in the loaded settings is the
local-process spawner: the `JupyterHub.spawner_class` key holds the string
`jupyterhub.spawner.LocalProcessSpawner`. -/
theorem C6_spawner_class_selection :
    loadedConfigVal "JupyterHub.spawner_class" =
      some (.str "jupyterhub.spawner.LocalProcessSpawner") :=
  rfl

/-- C7.  After loading, the administrative-user set is exactly the
singleton `jhover@bnl.gov`, the enable-auth-state flag is True, and the
auto-create-local-account flag (`create_system_users`) is True. -/
theorem C7_admin_auth_state_create_users :
    loadedConfigVal "Authenticator.admin_users" = some (.pySet [.str "jhover@bnl.gov"]) ∧
    loadedConfigVal "Authenticator.enable_auth_state" = some (.bool true) ∧
    loadedConfigVal "LocalAuthenticator.create_system_users" = some (.bool true) :=
  ⟨rfl, rfl, rfl⟩

/-- C8.  Loading succeeds only if `jupyterhub.comanage` is importable: any
run of the module body that returns a state had that module available, and
in an environment providing only the other two modules the load aborts
with an ImportError for it.  Yet the imported `NormalizedSpawner` symbol is
never used in any assigned value, and the spawner actually selected is the
dotted string `jupyterhub.spawner.LocalProcessSpawner`, not the imported
class. -/
theorem C8_import_required_spawner_unused (available : List String)
    (st st' : LoadState)
    (h : runStmts available jupyterhub_config_comanage st = .ok st') :
    "jupyterhub.comanage" ∈ available ∧
    runStmts ["os", "oauthenticator.comanage"] jupyterhub_config_comanage LoadState.empty =
      .error "ImportError: jupyterhub.comanage" ∧
    (jupyterhub_config_comanage.all
      fun s => ! stmtUsesClass "jupyterhub.comanage" "NormalizedSpawner" s) = true ∧
    loadedConfigVal "JupyterHub.spawner_class" =
      some (.str "jupyterhub.spawner.LocalProcessSpawner") := by
  refine ⟨?_, rfl, rfl, rfl⟩
  by_contra hm
  simp only [jupyterhub_config_comanage, runStmts] at h
  split_ifs at h

/-- C8 (witness).  The import-required theorem applied to the concrete run
in which all three modules are importable and the load returns the expected
state. -/
theorem C8_import_required_spawner_unused_witness :
    "jupyterhub.comanage" ∈ importedModules ∧
    runStmts ["os", "oauthenticator.comanage"] jupyterhub_config_comanage LoadState.empty =
      .error "ImportError: jupyterhub.comanage" ∧
    (jupyterhub_config_comanage.all
      fun s => ! stmtUsesClass "jupyterhub.comanage" "NormalizedSpawner" s) = true ∧
    loadedConfigVal "JupyterHub.spawner_class" =
      some (.str "jupyterhub.spawner.LocalProcessSpawner") :=
  C8_import_required_spawner_unused importedModules LoadState.empty expectedState rfl

/-- C9.  Loading sets the proxy debug flag, the per-user spawner debug flag
(`c.Spawner.debug = True`), and the hub log verbosity level 10, so verbose
output is enabled on the proxy, the spawner, and the hub logger at once. -/
theorem C9_debug_flags_and_log_level :
    loadedConfigVal "ConfigurableHTTPProxy.debug" = some (.bool true) ∧
    loadedConfigVal "Spawner.debug" = some (.bool true) ∧
    loadedConfigVal "JupyterHub.log_level" = some (.int 10) :=
  ⟨rfl, rfl, rfl⟩

/-- C10.  The values bound to CILOGON_CLIENT_SECRET and
JUPYTERHUB_CRYPT_KEY consist entirely of the characters `X` and `x`: the
file configures only redacted placeholders for these two secrets. -/
theorem C10_secrets_redacted :
    (loadedEnvVal "CILOGON_CLIENT_SECRET").map
      (fun s => s.data.all fun ch => ch == 'X' || ch == 'x') = some true ∧
    (loadedEnvVal "JUPYTERHUB_CRYPT_KEY").map
      (fun s => s.data.all fun ch => ch == 'X' || ch == 'x') = some true :=
  ⟨rfl, rfl⟩

end PyComanage
